import Mathlib

/-
Verification of the cluster-aware managed-network lifecycle controller
(cmd/incusd/networks.go) against its natural-language specification.

The Go handlers are shallowly embedded as pure Lean functions.  External
collaborators (the replicated catalog, the network driver, the cluster
notifier, the authorizer and the event bus) are modelled as oracles: each
fallible external call is represented by a boolean (or function-valued)
field of an environment structure, and each externally visible action is
recorded as an event in a trace.  Catalog writes appear in the trace only
when the enclosing transaction commits, mirroring transactional atomicity.
-/

set_option autoImplicit false

namespace Incus

/-- Configuration map, mirroring the Go map from string keys to string
values.  Keys are unique in practice; an association list keeps the
embedding executable. -/
abbrev Config := List (String × String)

/-- Lookup mirroring Go map indexing: a missing key yields the empty string. -/
def cfgGet (c : Config) (k : String) : String :=
  match c.find? (fun p => p.fst == k) with
  | some p => p.snd
  | none => ""

/-- Insert or overwrite a key, mirroring Go map assignment. -/
def cfgSet (c : Config) (k v : String) : Config :=
  if c.any (fun p => p.fst == k) then
    c.map (fun p => if p.fst == k then (k, v) else p)
  else c ++ [(k, v)]

/-- Client type from the User-Agent header, as in cluster request handling:
normal requests, peer notifications, and cluster-join bootstrap requests. -/
inductive ClientType
  | normal
  | notifier
  | joiner
deriving DecidableEq, Repr

/-- Network status values stored in the catalog. -/
inductive NetworkStatus
  | pending
  | created
  | errored
  | unknown
deriving DecidableEq, Repr

/-- Externally visible actions recorded while a handler runs.  Catalog
writes are recorded only when the enclosing transaction commits. -/
inductive Ev
  | fillConfig
  | createNetworkConfig
  | networkErrored
  | driverValidate
  | driverCreate
  | driverStart
  | driverDelete
  | networkNodeCreated
  | peerCreate (member : String)
  | networkCreated
  | driverUpdate
  | sendLifecycle
  | peerDelete (member : String)
  | dbDeleteNetwork
  | driverRename
deriving DecidableEq, Repr

/-- The catalog state of one network record as seen by the handlers:
the global status and the local-member status. -/
structure NetDB where
  status : NetworkStatus
  localStatus : NetworkStatus
deriving DecidableEq, Repr

/-- Oracles for the external calls made by doNetworksCreate: driver
Validate, driver Create, driver Start, and the NetworkNodeCreated
catalog transaction. -/
structure CreateEnv where
  validateOk : Config → Bool
  createOk : Bool
  startOk : Bool
  nodeCreatedOk : Bool

/-- Boolean string beginning test mirroring the Go function
strings.HasPrefix, computed on the underlying character lists so that it
evaluates by kernel reduction. -/
def strStartsWith (s pre : String) : Bool :=
  List.isPrefixOf pre.data s.data

/-- Strip the ACL keys exactly as doNetworksCreate does for the joiner
client type: keys equal to security.acls, and keys beginning with the
string security.acls followed by a dot. -/
def stripSecurityACLs (c : Config) : Config :=
  c.filter (fun p => !(p.fst == "security.acls" || strStartsWith p.fst "security.acls."))

/-- The config doNetworksCreate passes to driver Validate for a given
client type: the stripped config for a joiner, the full effective config
otherwise. -/
def validateConfigFor (ct : ClientType) (cfg : Config) : Config :=
  if ct = ClientType.joiner then stripSecurityACLs cfg else cfg

/-- Modelled from the claim wording for comparison (refinement target,
not from the source): strip every key that is equal to security.acls or
that begins with the string security.acls, with no dot required after it. -/
def claimJoinerValidateConfig (c : Config) : Config :=
  c.filter (fun p => !(p.fst == "security.acls" || strStartsWith p.fst "security.acls"))

/-- Local actuation (doNetworksCreate): validate the effective config,
skip when the local status is already created, otherwise driver Create,
driver Start (skipped for joiners), and the NetworkNodeCreated catalog
write; on a failure after Create the revert deletes the driver resource. -/
def doNetworksCreate (env : CreateEnv) (db : NetDB) (cfg : Config) (ct : ClientType) :
    List Ev × NetDB × Bool :=
  if env.validateOk (validateConfigFor ct cfg) = false then
    ([Ev.driverValidate], db, false)
  else if db.localStatus = NetworkStatus.created then
    ([Ev.driverValidate], db, true)
  else if env.createOk = false then
    ([Ev.driverValidate, Ev.driverCreate], db, false)
  else if ct ≠ ClientType.joiner ∧ env.startOk = false then
    ([Ev.driverValidate, Ev.driverCreate, Ev.driverStart, Ev.driverDelete], db, false)
  else if env.nodeCreatedOk = false then
    (([Ev.driverValidate, Ev.driverCreate] ++
        (if ct = ClientType.joiner then [] else [Ev.driverStart])) ++ [Ev.driverDelete],
     db, false)
  else
    (([Ev.driverValidate, Ev.driverCreate] ++
        (if ct = ClientType.joiner then [] else [Ev.driverStart])) ++ [Ev.networkNodeCreated],
     { db with localStatus := NetworkStatus.created }, true)

/-- Existing network record as returned by GetNetworkInAnyState: name,
type, global status and the effective config. -/
structure NetInfo where
  name : String
  type : String
  status : NetworkStatus
  config : Config
deriving Repr

/-- Body of a create request (NetworksPost). -/
structure NetworksPostReq where
  name : String
  type : String
  config : Config
deriving Repr

/-- networkPartiallyCreated: true when the global status is errored, or
when at least one non-node-specific (global) config key is present. -/
def networkPartiallyCreated (nodeSpecific : String → Bool) (netInfo : NetInfo) : Bool :=
  if netInfo.status = NetworkStatus.errored then true
  else netInfo.config.any (fun p => !(nodeSpecific p.fst))

/-- Oracles for networksPostCluster: the node-specific key classifier,
the outcomes of the catalog reads and writes inside the global-insert
transaction, the effective config LoadByName returns on the local member,
the local-actuation oracles, the peer list with per-peer outcomes of the
fan-out, and the outcome of the final NetworkCreated transaction.
LoadByName and notifier construction are modelled as succeeding. -/
structure ClusterEnv where
  nodeSpecific : String → Bool
  idFound : Bool
  nodeConfigsOk : Bool
  fillOk : Bool
  txCommitOk : Bool
  loadedConfig : Config
  createEnv : CreateEnv
  peers : List String
  peerOk : String → Bool
  createdTxOk : Bool

/-- The single transaction of networksPostCluster that inserts the global
config: on the partially-created path it only checks that the request
config is empty and skips re-inserting; on the fresh path it fetches the
network id, the per-node configs, fills defaults into the request config,
inserts the global config keys, and pre-marks the record errored.  The
two catalog writes commit atomically, so their events appear only when
the whole transaction succeeds. -/
def clusterGlobalInsertTx (env : ClusterEnv) (netInfo : Option NetInfo)
    (req : NetworksPostReq) (db : NetDB) : List Ev × NetDB × Bool :=
  let partiallyCreated :=
    match netInfo with
    | some net => networkPartiallyCreated env.nodeSpecific net
    | none => false
  if partiallyCreated then
    if req.config.isEmpty = false then ([], db, false)
    else ([], db, true)
  else if env.idFound = false then ([], db, false)
  else if env.nodeConfigsOk = false then ([], db, false)
  else if env.fillOk = false then ([Ev.fillConfig], db, false)
  else if env.txCommitOk = false then ([Ev.fillConfig], db, false)
  else ([Ev.fillConfig, Ev.createNetworkConfig, Ev.networkErrored],
        { db with status := NetworkStatus.errored }, true)

/-- Sequential model of the cluster notifier fan-out: every peer in scope
is invoked and the first error aborts with that error. -/
def notifyEach (mk : String → Ev) (peers : List String) (peerOk : String → Bool) :
    List Ev × Bool :=
  match peers with
  | [] => ([], true)
  | p :: rest =>
    if peerOk p = false then ([mk p], false)
    else
      let r := notifyEach mk rest peerOk
      (mk p :: r.1, r.2)

/-- The body of networksPostCluster after its quick checks: run the
global-insert transaction, actuate locally via doNetworksCreate, fan out
creation to the peers, and on full success mark the record created. -/
def networksPostClusterRun (env : ClusterEnv) (netInfo : Option NetInfo)
    (req : NetworksPostReq) (ct : ClientType) (db : NetDB) :
    List Ev × NetDB × Bool :=
  match clusterGlobalInsertTx env netInfo req db with
  | (txEvs, db1, txOk) =>
    if txOk = false then (txEvs, db1, false)
    else
      match doNetworksCreate env.createEnv db1 env.loadedConfig ct with
      | (localEvs, db2, localOk) =>
        if localOk = false then (txEvs ++ localEvs, db2, false)
        else
          match notifyEach Ev.peerCreate env.peers env.peerOk with
          | (peerEvs, peersOk) =>
            if peersOk = false then (txEvs ++ localEvs ++ peerEvs, db2, false)
            else if env.createdTxOk = false then (txEvs ++ localEvs ++ peerEvs, db2, false)
            else (txEvs ++ localEvs ++ peerEvs ++ [Ev.networkCreated],
                  { db2 with status := NetworkStatus.created }, true)

/-- networksPostCluster: refuse node-specific keys in the request config;
when a record exists refuse an already-created record and a type
mismatch; then run the two-phase body. -/
def networksPostCluster (env : ClusterEnv) (netInfo : Option NetInfo)
    (req : NetworksPostReq) (ct : ClientType) (db : NetDB) :
    List Ev × NetDB × Bool :=
  if req.config.any (fun p => env.nodeSpecific p.fst) then ([], db, false)
  else
    match netInfo with
    | some net =>
      if net.status = NetworkStatus.created then ([], db, false)
      else if req.type ≠ net.type then ([], db, false)
      else networksPostClusterRun env (some net) req ct db
    | none => networksPostClusterRun env none req ct db

/-- HTTP method distinguishing a full update from a patch; networkPatch
delegates to networkPut passing the request method through. -/
inductive HttpMethod
  | put
  | patch
deriving DecidableEq, Repr

/-- Response kinds of the update handler. -/
inductive PutResult
  | ok
  | badRequest
  | preconditionFailed
  | notFound
  | smartErr
deriving DecidableEq, Repr

/-- Oracles and ambient state for networkPut and doNetworkUpdate: whether
the server is clustered, the target query parameter, the global status of
the record, the current effective config, the node-specific classifier,
and the outcomes of loading, access check, ETag check, body decode,
driver Validate and driver Update. -/
structure PutEnv where
  clustered : Bool
  target : String
  status : NetworkStatus
  curConfig : Config
  nodeSpecific : String → Bool
  loadOk : Bool
  accessOk : Bool
  etagOk : Bool
  decodeOk : Bool
  validateOk : Config → Bool
  updateOk : Bool

/-- The merge rules of doNetworkUpdate: a clustered non-target put copies
the current node-specific values into the request config; a patch copies
every current key absent from the request config; otherwise the request
config replaces everything. -/
def mergedUpdateConfig (env : PutEnv) (method : HttpMethod) (reqConfig : Config) : Config :=
  if env.target = "" ∧ method ≠ HttpMethod.patch ∧ env.clustered = true then
    env.curConfig.foldl
      (fun acc p => if env.nodeSpecific p.fst then cfgSet acc p.fst p.snd else acc) reqConfig
  else if method = HttpMethod.patch then
    env.curConfig.foldl
      (fun acc p => if acc.any (fun q => q.fst == p.fst) then acc else acc ++ [p]) reqConfig
  else reqConfig

/-- doNetworkUpdate: driver Validate on the merged config (bad request on
failure), then driver Update (smart error on failure). -/
def doNetworkUpdate (env : PutEnv) (method : HttpMethod) (reqConfig : Config) :
    List Ev × PutResult :=
  if env.validateOk (mergedUpdateConfig env method reqConfig) = false then
    ([Ev.driverValidate], PutResult.badRequest)
  else if env.updateOk = false then
    ([Ev.driverValidate, Ev.driverUpdate], PutResult.smartErr)
  else ([Ev.driverValidate, Ev.driverUpdate], PutResult.ok)

/-- The changed keys of an update request: the request keys whose value
differs from the current config value (a missing current key reads as the
empty string, as a Go map does). -/
def changedConfigKeys (cur reqc : Config) : List String :=
  (reqc.filter (fun p => !(cfgGet cur p.fst == p.snd))).map Prod.fst

/-- The clustered key-scope check of networkPut: without a target some
changed key is node-specific, with a target some changed key is not. -/
def scopeViolation (env : PutEnv) (reqConfig : Config) : Bool :=
  if env.target = "" then (changedConfigKeys env.curConfig reqConfig).any env.nodeSpecific
  else (changedConfigKeys env.curConfig reqConfig).any (fun k => !(env.nodeSpecific k))

/-- Whether a networkPut request passes every check that precedes
doNetworkUpdate: load, access, created-state for global updates, ETag,
body decode, and the clustered key-scope check. -/
def putReachesUpdate (env : PutEnv) (reqConfig : Config) : Bool :=
  if env.loadOk = false then false
  else if env.accessOk = false then false
  else if env.target = "" ∧ env.status ≠ NetworkStatus.created then false
  else if env.etagOk = false then false
  else if env.decodeOk = false then false
  else if env.clustered = true ∧ scopeViolation env reqConfig = true then false
  else true

/-- networkPut (also serving PATCH through networkPatch): the checks in
source order, then doNetworkUpdate, then the network-updated lifecycle
event is sent and the response of doNetworkUpdate is returned. -/
def networkPut (env : PutEnv) (method : HttpMethod) (reqConfig : Config) :
    List Ev × PutResult :=
  if env.loadOk = false then ([], PutResult.smartErr)
  else if env.accessOk = false then ([], PutResult.notFound)
  else if env.target = "" ∧ env.status ≠ NetworkStatus.created then ([], PutResult.badRequest)
  else if env.etagOk = false then ([], PutResult.preconditionFailed)
  else if env.decodeOk = false then ([], PutResult.badRequest)
  else if env.clustered = true ∧ scopeViolation env reqConfig = true then
    ([], PutResult.badRequest)
  else
    match doNetworkUpdate env method reqConfig with
    | (updEvs, res) => (updEvs ++ [Ev.sendLifecycle], res)

/-- Response kinds of the rename handler. -/
inductive RenameResult
  | ok
  | badRequest
  | notFound
  | conflict
  | internalErr
  | smartErr
deriving DecidableEq, Repr

/-- Oracles and ambient state for the rename handler networkPost: whether
the server is clustered, then the outcomes of the checks in source order:
project resolution, body decode, record load, project access, the global
status, the requested new name with its driver validation, the in-use
probe (none models a probe error), the existing names in the project, and
the driver Rename outcome. -/
structure RenameEnv where
  clustered : Bool
  projectOk : Bool
  decodeOk : Bool
  loadOk : Bool
  accessOk : Bool
  status : NetworkStatus
  newName : String
  validateNameOk : Bool
  isUsed : Option Bool
  existingNetworks : List String
  renameOk : Bool

/-- networkPost, the rename handler: refuse immediately when clustered,
then validate in source order and finally call driver Rename and emit the
network-renamed event. -/
def networkPost (env : RenameEnv) : List Ev × RenameResult :=
  if env.clustered = true then ([], RenameResult.badRequest)
  else if env.projectOk = false then ([], RenameResult.smartErr)
  else if env.decodeOk = false then ([], RenameResult.badRequest)
  else if env.loadOk = false then ([], RenameResult.smartErr)
  else if env.accessOk = false then ([], RenameResult.notFound)
  else if env.status ≠ NetworkStatus.created then ([], RenameResult.badRequest)
  else if env.newName = "" then ([], RenameResult.badRequest)
  else if env.validateNameOk = false then ([], RenameResult.badRequest)
  else
    match env.isUsed with
    | none => ([], RenameResult.internalErr)
    | some true => ([], RenameResult.badRequest)
    | some false =>
      if env.newName ∈ env.existingNetworks then ([], RenameResult.conflict)
      else if env.renameOk = false then ([Ev.driverRename], RenameResult.smartErr)
      else ([Ev.driverRename, Ev.sendLifecycle], RenameResult.ok)

/-- Response kinds of the delete handler. -/
inductive DeleteResult
  | ok
  | badRequest
  | notFound
  | internalErr
  | smartErr
deriving DecidableEq, Repr

/-- Oracles and ambient state for networkDelete: outcomes of record load
and project access, whether the request is a cluster notification, the
in-use probe (none models a probe error), the local status, the driver
Delete outcome, whether the server is clustered with the peer fan-out
outcomes, and the catalog DeleteNetwork outcome. -/
structure DeleteEnv where
  loadOk : Bool
  accessOk : Bool
  isClusterNotification : Bool
  isUsed : Option Bool
  localStatus : NetworkStatus
  driverDeleteOk : Bool
  clustered : Bool
  peers : List String
  peerDeleteOk : String → Bool
  dbDeleteOk : Bool

/-- The tail of networkDelete after the in-use gate: driver Delete unless
the local status is pending, stop early for cluster notifications,
otherwise fan the delete out to the peers when clustered, delete the
catalog record and emit the network-deleted event. -/
def networkDeleteRest (env : DeleteEnv) : List Ev × DeleteResult :=
  if env.localStatus ≠ NetworkStatus.pending ∧ env.driverDeleteOk = false then
    ([Ev.driverDelete], DeleteResult.internalErr)
  else
    let evs1 : List Ev :=
      if env.localStatus ≠ NetworkStatus.pending then [Ev.driverDelete] else []
    if env.isClusterNotification = true then (evs1, DeleteResult.ok)
    else
      match (if env.clustered = true then notifyEach Ev.peerDelete env.peers env.peerDeleteOk
             else ([], true)) with
      | (pevs, pok) =>
        if pok = false then (evs1 ++ pevs, DeleteResult.smartErr)
        else if env.dbDeleteOk = false then (evs1 ++ pevs, DeleteResult.smartErr)
        else (evs1 ++ pevs ++ [Ev.dbDeleteNetwork, Ev.sendLifecycle], DeleteResult.ok)

/-- networkDelete: load the record, gate on project access, and unless the
request is a cluster notification refuse a network that is in use before
any driver, peer or catalog action. -/
def networkDelete (env : DeleteEnv) : List Ev × DeleteResult :=
  if env.loadOk = false then ([], DeleteResult.smartErr)
  else if env.accessOk = false then ([], DeleteResult.notFound)
  else if env.isClusterNotification = false ∧ env.isUsed = none then
    ([], DeleteResult.smartErr)
  else if env.isClusterNotification = false ∧ env.isUsed = some true then
    ([], DeleteResult.badRequest)
  else networkDeleteRest env

/-- The default project name (api.ProjectDefaultName). -/
def defaultProjectName : String := "default"

/-- The name list built by networksGet for one project: the managed names
from the catalog and, when the effective project is the default, every
host interface whose name does not begin with veth and that is not
already named by a managed network. -/
def networksGetNames (projectName : String) (managed : List String)
    (ifaces : List String) : List String :=
  if projectName = defaultProjectName then
    ifaces.foldl
      (fun acc ifaceName =>
        if strStartsWith ifaceName "veth" then acc
        else if ifaceName ∈ acc then acc
        else acc ++ [ifaceName]) managed
  else managed

/-- Identity of a network within the startup engine. -/
structure ProjectNetwork where
  projectName : String
  networkName : String
deriving DecidableEq, Repr

/-- Startup priority of networks with no dependency. -/
def networkPriorityStandalone : Nat := 0

/-- Startup priority of networks depending on a physical interface. -/
def networkPriorityPhysical : Nat := 1

/-- Startup priority of networks depending on another logical network. -/
def networkPriorityLogical : Nat := 2

/-- The three startup buckets, indexed by the priority constants. -/
structure InitNetworks where
  standalone : List ProjectNetwork
  physical : List ProjectNetwork
  logical : List ProjectNetwork
deriving DecidableEq, Repr

/-- Read the bucket for a priority. -/
def bucketGet (b : InitNetworks) (priority : Nat) : List ProjectNetwork :=
  if priority = networkPriorityPhysical then b.physical
  else if priority = networkPriorityLogical then b.logical
  else b.standalone

/-- Replace the bucket for a priority. -/
def bucketSet (b : InitNetworks) (priority : Nat) (l : List ProjectNetwork) : InitNetworks :=
  if priority = networkPriorityPhysical then { b with physical := l }
  else if priority = networkPriorityLogical then { b with logical := l }
  else { b with standalone := l }

/-- Remove an entry from the bucket of a priority (Go map delete). -/
def bucketDelete (b : InitNetworks) (priority : Nat) (pn : ProjectNetwork) : InitNetworks :=
  bucketSet b priority ((bucketGet b priority).filter (fun x => !(x == pn)))

/-- Insert an entry into the bucket of a priority (Go map insert). -/
def bucketAdd (b : InitNetworks) (priority : Nat) (pn : ProjectNetwork) : InitNetworks :=
  if pn ∈ bucketGet b priority then b
  else bucketSet b priority (bucketGet b priority ++ [pn])

/-- Outcome of LoadByName in the startup engine. -/
inductive LoadResult
  | ok
  | notFound
  | err
deriving DecidableEq, Repr

/-- Classified outcome of one loadAndInitNetwork call. -/
inductive StartupOutcome
  | startedOk
  | moved
  | droppedNotFound
  | failed
deriving DecidableEq, Repr

/-- Oracles for the startup engine: the first-pass driver cache, the
LoadByName outcome, the effective config, and the driver Validate and
Start outcomes per network. -/
structure StartupEnv where
  cached : ProjectNetwork → Bool
  load : ProjectNetwork → LoadResult
  configOf : ProjectNetwork → Config
  validateOk : ProjectNetwork → Bool
  startOk : ProjectNetwork → Bool

/-- loadAndInitNetwork: reuse the cache on the first pass, drop entries
deleted since listing, validate, then classify by dependency (parent key
first, network key second) before any start; only an entry that stays in
its bucket is started, removing it on success and keeping it with a
warning on failure. -/
def loadAndInitNetwork (env : StartupEnv) (buckets : InitNetworks)
    (pn : ProjectNetwork) (priority : Nat) (firstPass : Bool) :
    InitNetworks × List Ev × StartupOutcome :=
  if ¬(firstPass = true ∧ env.cached pn = true) ∧ env.load pn = LoadResult.notFound then
    (bucketDelete buckets priority pn, [], StartupOutcome.droppedNotFound)
  else if ¬(firstPass = true ∧ env.cached pn = true) ∧ env.load pn = LoadResult.err then
    (buckets, [], StartupOutcome.failed)
  else if env.validateOk pn = false then
    (buckets, [], StartupOutcome.failed)
  else if cfgGet (env.configOf pn) "parent" ≠ "" ∧ priority ≠ networkPriorityPhysical then
    (bucketAdd (bucketDelete buckets priority pn) networkPriorityPhysical pn, [],
     StartupOutcome.moved)
  else if cfgGet (env.configOf pn) "network" ≠ "" ∧ priority ≠ networkPriorityLogical then
    (bucketAdd (bucketDelete buckets priority pn) networkPriorityLogical pn, [],
     StartupOutcome.moved)
  else if env.startOk pn = false then
    (buckets, [Ev.driverStart], StartupOutcome.failed)
  else
    (bucketDelete buckets priority pn, [Ev.driverStart], StartupOutcome.startedOk)

/-- Sample driver oracles for concrete witness evaluations: every external
call succeeds. -/
def sampleCreateEnv : CreateEnv :=
  { validateOk := fun _ => true, createOk := true, startOk := true, nodeCreatedOk := true }

/-- Sample cluster environment for concrete witness evaluations: parent is
the only node-specific key, the catalog calls succeed, and both peers
succeed. -/
def sampleClusterEnv : ClusterEnv :=
  { nodeSpecific := fun k => k == "parent"
    idFound := true
    nodeConfigsOk := true
    fillOk := true
    txCommitOk := true
    loadedConfig := [("ipv4.address", "auto")]
    createEnv := sampleCreateEnv
    peers := ["memberB", "memberC"]
    peerOk := fun _ => true
    createdTxOk := true }

/-- Sample existing record in errored state from an earlier failed create
attempt. -/
def sampleErroredNet : NetInfo :=
  { name := "n1", type := "bridge", status := NetworkStatus.errored,
    config := [("parent", "eth0")] }

/-- Sample pending catalog state. -/
def samplePendingDB : NetDB :=
  { status := NetworkStatus.pending, localStatus := NetworkStatus.pending }

/-- Sample errored catalog state. -/
def sampleErroredDB : NetDB :=
  { status := NetworkStatus.errored, localStatus := NetworkStatus.pending }

/-- Sample create request without config. -/
def sampleReq : NetworksPostReq :=
  { name := "n1", type := "bridge", config := [] }

/-- Sample update environment whose pre-update checks all pass but whose
driver Validate rejects every config. -/
def samplePutEnvFailedValidate : PutEnv :=
  { clustered := false
    target := ""
    status := NetworkStatus.created
    curConfig := []
    nodeSpecific := fun _ => false
    loadOk := true
    accessOk := true
    etagOk := true
    decodeOk := true
    validateOk := fun _ => false
    updateOk := true }

/-- Sample clustered update environment with parent as the node-specific
key and a current config carrying parent and mtu. -/
def sampleScopePutEnv : PutEnv :=
  { clustered := true
    target := ""
    status := NetworkStatus.created
    curConfig := [("parent", "eth0"), ("mtu", "1500")]
    nodeSpecific := fun k => k == "parent"
    loadOk := true
    accessOk := true
    etagOk := true
    decodeOk := true
    validateOk := fun _ => true
    updateOk := true }

/-- Sample rename environment on a clustered server where every later
check would pass. -/
def sampleRenameEnv : RenameEnv :=
  { clustered := true
    projectOk := true
    decodeOk := true
    loadOk := true
    accessOk := true
    status := NetworkStatus.created
    newName := "n2"
    validateNameOk := true
    isUsed := some false
    existingNetworks := ["n1"]
    renameOk := true }

/-- Sample delete environment for a network that reports in use on a
normal (non-notification) request. -/
def sampleDeleteEnv : DeleteEnv :=
  { loadOk := true
    accessOk := true
    isClusterNotification := false
    isUsed := some true
    localStatus := NetworkStatus.created
    driverDeleteOk := true
    clustered := true
    peers := ["memberB"]
    peerDeleteOk := fun _ => true
    dbDeleteOk := true }

/-- Sample startup environment whose only network carries both a parent
and a network dependency key. -/
def sampleStartupEnv : StartupEnv :=
  { cached := fun _ => false
    load := fun _ => LoadResult.ok
    configOf := fun _ => [("parent", "eth9"), ("network", "net0")]
    validateOk := fun _ => true
    startOk := fun _ => true }

/-- Sample startup entry. -/
def samplePN : ProjectNetwork :=
  { projectName := "default", networkName := "phys1" }

/-- Sample startup buckets with the sample entry seeded standalone. -/
def sampleBuckets : InitNetworks :=
  { standalone := [samplePN], physical := [], logical := [] }

/-- Every event emitted by doNetworksCreate is a driver-validate, create,
start, delete or node-created event. -/
lemma doNetworksCreate_events (env : CreateEnv) (db : NetDB) (cfg : Config) (ct : ClientType) :
    ∀ e ∈ (doNetworksCreate env db cfg ct).1,
      e = Ev.driverValidate ∨ e = Ev.driverCreate ∨ e = Ev.driverStart ∨
      e = Ev.driverDelete ∨ e = Ev.networkNodeCreated := by
  intro e he
  unfold doNetworksCreate at he
  split_ifs at he <;> simp at he <;> tauto

/-- doNetworksCreate never changes the global status of the record. -/
lemma doNetworksCreate_status (env : CreateEnv) (db : NetDB) (cfg : Config) (ct : ClientType) :
    (doNetworksCreate env db cfg ct).2.1.status = db.status := by
  unfold doNetworksCreate
  split_ifs <;> rfl

/-- doNetworksCreate emits none of the global catalog events: no created
marker, no default fill, no global config insert, no errored marker. -/
lemma doNetworksCreate_no_global_events (env : CreateEnv) (db : NetDB)
    (cfg : Config) (ct : ClientType) :
    Ev.networkCreated ∉ (doNetworksCreate env db cfg ct).1 ∧
    Ev.fillConfig ∉ (doNetworksCreate env db cfg ct).1 ∧
    Ev.createNetworkConfig ∉ (doNetworksCreate env db cfg ct).1 ∧
    Ev.networkErrored ∉ (doNetworksCreate env db cfg ct).1 := by
  refine ⟨fun h => ?_, fun h => ?_, fun h => ?_, fun h => ?_⟩ <;>
    (have hd := doNetworksCreate_events env db cfg ct _ h; simp at hd)

/-- The fan-out succeeds exactly when every peer in scope succeeds. -/
lemma notifyEach_ok_iff (mk : String → Ev) (peers : List String) (f : String → Bool) :
    (notifyEach mk peers f).2 = true ↔ ∀ p ∈ peers, f p = true := by
  induction peers with
  | nil => simp [notifyEach]
  | cons p rest ih =>
    cases hp : f p with
    | false => simp [notifyEach, hp]
    | true => simp [notifyEach, hp, ih, hp]

/-- Every event the fan-out emits is a per-peer event for a peer in scope. -/
lemma notifyEach_events (mk : String → Ev) (peers : List String) (f : String → Bool) :
    ∀ e ∈ (notifyEach mk peers f).1, ∃ p, p ∈ peers ∧ e = mk p := by
  induction peers with
  | nil => simp [notifyEach]
  | cons p rest ih =>
    intro e he
    cases hp : f p with
    | false =>
      simp [notifyEach, hp] at he
      exact ⟨p, by simp, he⟩
    | true =>
      simp [notifyEach, hp] at he
      rcases he with he | he
      · exact ⟨p, by simp, he⟩
      · rcases ih e he with ⟨q, hq, he2⟩
        exact ⟨q, by simp [hq], he2⟩

/-- The create fan-out never emits a global created marker. -/
lemma notifyEach_peerCreate_no_networkCreated (peers : List String) (f : String → Bool) :
    Ev.networkCreated ∉ (notifyEach Ev.peerCreate peers f).1 := by
  intro h
  rcases notifyEach_events Ev.peerCreate peers f _ h with ⟨p, _, hp⟩
  cases hp

/-- The create fan-out never emits a default fill, global insert or
errored marker event. -/
lemma notifyEach_peerCreate_no_tx_events (peers : List String) (f : String → Bool) :
    Ev.fillConfig ∉ (notifyEach Ev.peerCreate peers f).1 ∧
    Ev.createNetworkConfig ∉ (notifyEach Ev.peerCreate peers f).1 ∧
    Ev.networkErrored ∉ (notifyEach Ev.peerCreate peers f).1 := by
  refine ⟨fun h => ?_, fun h => ?_, fun h => ?_⟩ <;>
    (rcases notifyEach_events Ev.peerCreate peers f _ h with ⟨p, _, hp⟩; cases hp)

/-- doNetworkUpdate never sends the lifecycle event itself; only
networkPut does, after doNetworkUpdate returns. -/
lemma doNetworkUpdate_no_lifecycle (env : PutEnv) (method : HttpMethod) (reqConfig : Config) :
    Ev.sendLifecycle ∉ (doNetworkUpdate env method reqConfig).1 := by
  unfold doNetworkUpdate
  split_ifs <;> simp

/-- Reading back the bucket just written yields the written list. -/
lemma bucketGet_bucketSet (b : InitNetworks) (priority : Nat) (l : List ProjectNetwork) :
    bucketGet (bucketSet b priority l) priority = l := by
  unfold bucketGet bucketSet
  split_ifs <;> rfl

/-- An inserted entry is a member of its bucket. -/
lemma bucketGet_bucketAdd_self (b : InitNetworks) (priority : Nat) (pn : ProjectNetwork) :
    pn ∈ bucketGet (bucketAdd b priority pn) priority := by
  unfold bucketAdd
  split_ifs with h
  · exact h
  · rw [bucketGet_bucketSet]
    simp

/-- Membership in the interface fold of networksGet: a name is in the
result when it is in the accumulator or is a host interface whose name
does not begin with veth. -/
lemma networksGetFold_mem (ifaces : List String) (acc : List String) (x : String) :
    x ∈ ifaces.foldl
        (fun acc2 ifaceName =>
          if strStartsWith ifaceName "veth" then acc2
          else if ifaceName ∈ acc2 then acc2
          else acc2 ++ [ifaceName]) acc ↔
      x ∈ acc ∨ (x ∈ ifaces ∧ strStartsWith x "veth" = false) := by
  induction ifaces generalizing acc with
  | nil => simp
  | cons i rest ih =>
    simp only [List.foldl_cons]
    by_cases hv : strStartsWith i "veth" = true
    · rw [if_pos hv, ih]
      constructor
      · rintro (h | h)
        · exact Or.inl h
        · exact Or.inr ⟨List.mem_cons_of_mem _ h.1, h.2⟩
      · rintro (h | ⟨hmem, hnv⟩)
        · exact Or.inl h
        · rcases List.mem_cons.1 hmem with rfl | hmem2
          · rw [hv] at hnv
            exact absurd hnv (by simp)
          · exact Or.inr ⟨hmem2, hnv⟩
    · have hv2 : strStartsWith i "veth" = false := by
        cases hvv : strStartsWith i "veth"
        · rfl
        · exact absurd hvv hv
      rw [if_neg hv]
      by_cases hin : i ∈ acc
      · rw [if_pos hin, ih]
        constructor
        · rintro (h | h)
          · exact Or.inl h
          · exact Or.inr ⟨List.mem_cons_of_mem _ h.1, h.2⟩
        · rintro (h | ⟨hmem, hnv⟩)
          · exact Or.inl h
          · rcases List.mem_cons.1 hmem with rfl | hmem2
            · exact Or.inl hin
            · exact Or.inr ⟨hmem2, hnv⟩
      · rw [if_neg hin, ih]
        constructor
        · rintro (h | ⟨hmem, hnv⟩)
          · rcases List.mem_append.1 h with h2 | h2
            · exact Or.inl h2
            · rcases List.mem_singleton.1 h2 with rfl
              exact Or.inr ⟨List.mem_cons_self _ _, hv2⟩
          · exact Or.inr ⟨List.mem_cons_of_mem _ hmem, hnv⟩
        · rintro (h | ⟨hmem, hnv⟩)
          · exact Or.inl (List.mem_append.2 (Or.inl h))
          · rcases List.mem_cons.1 hmem with rfl | hmem2
            · exact Or.inl (List.mem_append.2 (Or.inr (List.mem_singleton.2 rfl)))
            · exact Or.inr ⟨hmem2, hnv⟩

/-- The interface fold of networksGet preserves freedom from duplicates:
an interface is appended only when not already present. -/
lemma networksGetFold_nodup (ifaces : List String) (acc : List String) (h : acc.Nodup) :
    (ifaces.foldl
        (fun acc2 ifaceName =>
          if strStartsWith ifaceName "veth" then acc2
          else if ifaceName ∈ acc2 then acc2
          else acc2 ++ [ifaceName]) acc).Nodup := by
  induction ifaces generalizing acc with
  | nil => simpa
  | cons i rest ih =>
    simp only [List.foldl_cons]
    by_cases hv : strStartsWith i "veth" = true
    · rw [if_pos hv]
      exact ih acc h
    · rw [if_neg hv]
      by_cases hin : i ∈ acc
      · rw [if_pos hin]
        exact ih acc h
      · rw [if_neg hin]
        refine ih _ ?_
        simp [List.nodup_append, h, hin]

end Incus

namespace Incus

/-- C6: when the local status is already created and validation passes,
doNetworksCreate returns success having only called driver Validate: no
driver Create, no driver Start, no NetworkNodeCreated write, and the
record is unchanged, so re-invoking create on an already-actuated member
is a local no-op. -/
theorem doNetworksCreate_local_created_noop (env : CreateEnv) (db : NetDB)
    (cfg : Config) (ct : ClientType)
    (hval : env.validateOk (validateConfigFor ct cfg) = true)
    (hloc : db.localStatus = NetworkStatus.created) :
    doNetworksCreate env db cfg ct = ([Ev.driverValidate], db, true) := by
  unfold doNetworksCreate
  simp [hval, hloc]

/-- Witness for C6 at a concrete input: validation accepts everything and
the local status is created, so the call is a successful no-op. -/
theorem doNetworksCreate_local_created_noop_witness :
    doNetworksCreate
      { validateOk := fun _ => true, createOk := false, startOk := false, nodeCreatedOk := false }
      { status := NetworkStatus.errored, localStatus := NetworkStatus.created }
      [("parent", "eth0")] ClientType.normal
      = ([Ev.driverValidate],
         { status := NetworkStatus.errored, localStatus := NetworkStatus.created }, true) :=
  doNetworksCreate_local_created_noop _ _ _ _ rfl rfl

/-- C4 counterexample: the key security.aclsX begins with the string
security.acls but not with security.acls followed by a dot, so the code
keeps it in the config passed to driver Validate for a joiner, while the
claim says it is removed.  With a driver whose Validate accepts exactly
the empty config, the code fails validation while the claimed stripped
config would pass. -/
theorem joinerValidateConfig_counterexample :
    validateConfigFor ClientType.joiner [("security.aclsX", "1")]
      ≠ claimJoinerValidateConfig [("security.aclsX", "1")] ∧
    (doNetworksCreate
      { validateOk := fun c => c.isEmpty, createOk := true, startOk := true, nodeCreatedOk := true }
      { status := NetworkStatus.pending, localStatus := NetworkStatus.pending }
      [("security.aclsX", "1")] ClientType.joiner).2.2 = false ∧
    (claimJoinerValidateConfig [("security.aclsX", "1")]).isEmpty = true := by
  refine ⟨by decide, by decide, by decide⟩

/-- C4 amended: for a joiner, the config passed to driver Validate is the
effective config with the keys equal to security.acls or beginning with
security.acls followed by a dot removed; every other client type has its
full effective config validated. -/
theorem joinerValidateConfig_amended (cfg : Config) :
    (∀ k v, (k, v) ∈ validateConfigFor ClientType.joiner cfg ↔
      ((k, v) ∈ cfg ∧ k ≠ "security.acls" ∧ strStartsWith k "security.acls." = false)) ∧
    (∀ ct, ct ≠ ClientType.joiner → validateConfigFor ct cfg = cfg) := by
  constructor
  · intro k v
    simp [validateConfigFor, stripSecurityACLs, List.mem_filter, and_assoc]
  · intro ct hct
    unfold validateConfigFor
    simp [hct]

/-- C1: on the fresh two-phase path (no existing partially created
record) with the global-insert transaction succeeding, the global config
insert and the errored marker are the first events, committed together
before any driver create, driver start or peer fan-out; the global
created marker appears only when the local actuation and every peer
succeeded and then as the final event; and when the local actuation or
any peer fails the call fails with the record left in errored. -/
theorem networksPostCluster_fresh_two_phase (env : ClusterEnv) (netInfo : Option NetInfo)
    (req : NetworksPostReq) (ct : ClientType) (db : NetDB)
    (hns : req.config.any (fun p => env.nodeSpecific p.fst) = false)
    (hfresh : ∀ net, netInfo = some net →
      networkPartiallyCreated env.nodeSpecific net = false ∧
      net.status ≠ NetworkStatus.created ∧ req.type = net.type)
    (hid : env.idFound = true) (hcfgs : env.nodeConfigsOk = true)
    (hfill : env.fillOk = true) (htxc : env.txCommitOk = true) :
    (networksPostCluster env netInfo req ct db).1.take 3
        = [Ev.fillConfig, Ev.createNetworkConfig, Ev.networkErrored] ∧
    (Ev.networkCreated ∈ (networksPostCluster env netInfo req ct db).1 →
      (doNetworksCreate env.createEnv { db with status := NetworkStatus.errored }
          env.loadedConfig ct).2.2 = true ∧
      (∀ p ∈ env.peers, env.peerOk p = true) ∧
      ∃ pre, (networksPostCluster env netInfo req ct db).1 = pre ++ [Ev.networkCreated] ∧
        Ev.networkCreated ∉ pre) ∧
    (((doNetworksCreate env.createEnv { db with status := NetworkStatus.errored }
          env.loadedConfig ct).2.2 = false ∨ ∃ p ∈ env.peers, env.peerOk p = false) →
      (networksPostCluster env netInfo req ct db).2.2 = false ∧
      (networksPostCluster env netInfo req ct db).2.1.status = NetworkStatus.errored ∧
      Ev.networkCreated ∉ (networksPostCluster env netInfo req ct db).1) := by
  have hred : networksPostCluster env netInfo req ct db
      = networksPostClusterRun env netInfo req ct db := by
    unfold networksPostCluster
    cases netInfo with
    | none => simp [hns]
    | some net =>
      obtain ⟨_, h2, h3⟩ := hfresh net rfl
      simp [hns, h2, h3]
  have htx : clusterGlobalInsertTx env netInfo req db
      = ([Ev.fillConfig, Ev.createNetworkConfig, Ev.networkErrored],
         { db with status := NetworkStatus.errored }, true) := by
    unfold clusterGlobalInsertTx
    cases netInfo with
    | none => simp [hid, hcfgs, hfill, htxc]
    | some net =>
      obtain ⟨h1, _, _⟩ := hfresh net rfl
      simp [h1, hid, hcfgs, hfill, htxc]
  rw [hred]
  unfold networksPostClusterRun
  rw [htx]
  dsimp only
  rcases hL : doNetworksCreate env.createEnv { db with status := NetworkStatus.errored }
      env.loadedConfig ct with ⟨levs, db2, lok⟩
  rcases hF : notifyEach Ev.peerCreate env.peers env.peerOk with ⟨pevs, pok⟩
  dsimp only
  have hdbs : db2.status = NetworkStatus.errored := by
    have := doNetworksCreate_status env.createEnv
      { db with status := NetworkStatus.errored } env.loadedConfig ct
    rw [hL] at this
    exact this
  have hlev := doNetworksCreate_no_global_events env.createEnv
    { db with status := NetworkStatus.errored } env.loadedConfig ct
  rw [hL] at hlev
  cases lok with
  | false =>
    refine ⟨by simp, fun hmem => ?_, fun _ => ?_⟩
    · simp [hlev.1] at hmem
    · refine ⟨by simp, by simpa using hdbs, fun hmem => ?_⟩
      simp [hlev.1] at hmem
  | true =>
    have hpev := notifyEach_peerCreate_no_networkCreated env.peers env.peerOk
    rw [hF] at hpev
    cases pok with
    | false =>
      have hpexists : ∃ p ∈ env.peers, env.peerOk p = false := by
        by_contra hcon
        push_neg at hcon
        have : (notifyEach Ev.peerCreate env.peers env.peerOk).2 = true :=
          (notifyEach_ok_iff Ev.peerCreate env.peers env.peerOk).2
            (fun p hp => by
              have := hcon p hp
              cases h : env.peerOk p with
              | false => exact absurd h this
              | true => rfl)
        rw [hF] at this
        exact absurd this (by simp)
      refine ⟨by simp, fun hmem => ?_, fun _ => ?_⟩
      · simp [hlev.1, hpev] at hmem
      · refine ⟨by simp, by simpa using hdbs, fun hmem => ?_⟩
        simp [hlev.1, hpev] at hmem
    | true =>
      have hallpeers : ∀ p ∈ env.peers, env.peerOk p = true := by
        have := (notifyEach_ok_iff Ev.peerCreate env.peers env.peerOk).1
        rw [hF] at this
        exact this rfl
      cases hctx : env.createdTxOk with
      | false =>
        refine ⟨by simp [hctx], fun hmem => ?_, fun hfail => ?_⟩
        · simp [hctx, hlev.1, hpev] at hmem
        · refine ⟨by simp [hctx], by simp [hctx]; exact hdbs, fun hmem => ?_⟩
          simp [hctx, hlev.1, hpev] at hmem
      | true =>
        refine ⟨by simp [hctx], fun _ => ?_, fun hfail => ?_⟩
        · refine ⟨rfl, hallpeers,
            [Ev.fillConfig, Ev.createNetworkConfig, Ev.networkErrored] ++ levs ++ pevs,
            by simp [hctx], fun hmem => ?_⟩
          simp [hlev.1, hpev] at hmem
        · exfalso
          rcases hfail with h | ⟨p, hp, hpf⟩
          · simp at h
          · exact absurd (hallpeers p hp) (by simp [hpf])

/-- Witness for C1 at a concrete fresh create on a three-member cluster
where every step succeeds: the transaction events open the trace. -/
theorem networksPostCluster_fresh_two_phase_witness :
    (networksPostCluster sampleClusterEnv none sampleReq ClientType.normal samplePendingDB).1.take 3
        = [Ev.fillConfig, Ev.createNetworkConfig, Ev.networkErrored] :=
  (networksPostCluster_fresh_two_phase sampleClusterEnv none sampleReq ClientType.normal
    samplePendingDB rfl (fun _ h => nomatch h) rfl rfl rfl rfl).1

/-- C2: in networksPostCluster on a partially created record, a request
with non-empty config fails with no global config inserted and no other
effect, while a request with empty config skips the default fill and the
global config insert entirely and proceeds directly to local actuation. -/
theorem networksPostCluster_partially_created_skip (env : ClusterEnv) (net : NetInfo)
    (req : NetworksPostReq) (ct : ClientType) (db : NetDB)
    (hns : req.config.any (fun p => env.nodeSpecific p.fst) = false)
    (hpart : networkPartiallyCreated env.nodeSpecific net = true)
    (hstat : net.status ≠ NetworkStatus.created)
    (htype : req.type = net.type) :
    (req.config ≠ [] →
      networksPostCluster env (some net) req ct db = ([], db, false)) ∧
    (req.config = [] →
      Ev.fillConfig ∉ (networksPostCluster env (some net) req ct db).1 ∧
      Ev.createNetworkConfig ∉ (networksPostCluster env (some net) req ct db).1 ∧
      Ev.networkErrored ∉ (networksPostCluster env (some net) req ct db).1 ∧
      ∃ rest, (networksPostCluster env (some net) req ct db).1 =
        (doNetworksCreate env.createEnv db env.loadedConfig ct).1 ++ rest) := by
  have hred : networksPostCluster env (some net) req ct db
      = networksPostClusterRun env (some net) req ct db := by
    unfold networksPostCluster
    simp [hns, hstat, htype]
  constructor
  · intro hne
    have hemp : req.config.isEmpty = false := by
      cases hc : req.config with
      | nil => exact absurd hc hne
      | cons a l => simp [hc]
    have htx : clusterGlobalInsertTx env (some net) req db = ([], db, false) := by
      unfold clusterGlobalInsertTx
      simp [hpart, hemp]
    rw [hred]
    unfold networksPostClusterRun
    rw [htx]
    rfl
  · intro hemp0
    have hemp : req.config.isEmpty = true := by simp [hemp0]
    have htx : clusterGlobalInsertTx env (some net) req db = ([], db, true) := by
      unfold clusterGlobalInsertTx
      simp [hpart, hemp]
    rw [hred]
    unfold networksPostClusterRun
    rw [htx]
    dsimp only
    rcases hL : doNetworksCreate env.createEnv db env.loadedConfig ct with ⟨levs, db2, lok⟩
    rcases hF : notifyEach Ev.peerCreate env.peers env.peerOk with ⟨pevs, pok⟩
    dsimp only
    have hlev := doNetworksCreate_no_global_events env.createEnv db env.loadedConfig ct
    rw [hL] at hlev
    have hptx := notifyEach_peerCreate_no_tx_events env.peers env.peerOk
    rw [hF] at hptx
    cases lok with
    | false =>
      refine ⟨by simpa using hlev.2.1, by simpa using hlev.2.2.1,
        by simpa using hlev.2.2.2, ⟨[], by simp⟩⟩
    | true =>
      cases pok with
      | false =>
        refine ⟨?_, ?_, ?_, ⟨pevs, by simp⟩⟩ <;>
          simp [hlev.2.1, hlev.2.2.1, hlev.2.2.2, hptx.1, hptx.2.1, hptx.2.2]
      | true =>
        cases hctx : env.createdTxOk with
        | false =>
          refine ⟨?_, ?_, ?_, ⟨pevs, by simp [hctx]⟩⟩ <;>
            simp [hctx, hlev.2.1, hlev.2.2.1, hlev.2.2.2, hptx.1, hptx.2.1, hptx.2.2]
        | true =>
          refine ⟨?_, ?_, ?_, ⟨pevs ++ [Ev.networkCreated], by simp [hctx]⟩⟩ <;>
            simp [hctx, hlev.2.1, hlev.2.2.1, hlev.2.2.2, hptx.1, hptx.2.1, hptx.2.2]

/-- Witness for C2 at a concrete partially created record (errored from a
previous attempt) and an empty-config re-create request: no fill, no
global insert, no errored write. -/
theorem networksPostCluster_partially_created_skip_witness :
    Ev.fillConfig ∉ (networksPostCluster sampleClusterEnv (some sampleErroredNet) sampleReq
        ClientType.normal sampleErroredDB).1 ∧
    Ev.createNetworkConfig ∉ (networksPostCluster sampleClusterEnv (some sampleErroredNet)
        sampleReq ClientType.normal sampleErroredDB).1 ∧
    Ev.networkErrored ∉ (networksPostCluster sampleClusterEnv (some sampleErroredNet)
        sampleReq ClientType.normal sampleErroredDB).1 := by
  have h := (networksPostCluster_partially_created_skip sampleClusterEnv sampleErroredNet
    sampleReq ClientType.normal sampleErroredDB rfl (by decide) (by decide) rfl).2 rfl
  exact ⟨h.1, h.2.1, h.2.2.1⟩

/-- Witness for C4 amended at a concrete config with one ACL key and one
ordinary key. -/
theorem joinerValidateConfig_amended_witness :
    (("mtu", "9000") ∈ validateConfigFor ClientType.joiner
        [("security.acls", "a"), ("mtu", "9000")] ↔
      (("mtu", "9000") ∈ ([("security.acls", "a"), ("mtu", "9000")] : Config) ∧
        "mtu" ≠ "security.acls" ∧ strStartsWith "mtu" "security.acls." = false)) ∧
    validateConfigFor ClientType.normal [("security.acls", "a")] = [("security.acls", "a")] := by
  have h := joinerValidateConfig_amended [("security.acls", "a"), ("mtu", "9000")]
  have h2 := joinerValidateConfig_amended [("security.acls", "a")]
  exact ⟨h.1 "mtu" "9000", h2.2 ClientType.normal (by decide)⟩

/-- C3 counterexample: a PUT whose pre-update checks all pass but whose
driver Validate rejects the config still sends the network-updated
lifecycle event, while returning bad request, so the event is not emitted
only after Validate and Update succeed. -/
theorem networkPut_event_despite_failed_validate_cex :
    (networkPut samplePutEnvFailedValidate HttpMethod.put []).2 = PutResult.badRequest ∧
    Ev.sendLifecycle ∈ (networkPut samplePutEnvFailedValidate HttpMethod.put []).1 := by
  exact ⟨by decide, by decide⟩

/-- C3 amended: the network-updated lifecycle event is sent exactly when
the request passes every check preceding doNetworkUpdate (load, access,
created-state, ETag, decode, key scope); once those pass the event is
sent unconditionally after doNetworkUpdate returns, even when driver
Validate or driver Update failed, and the failing response is returned
alongside it. -/
theorem networkPut_lifecycle_amended (env : PutEnv) (method : HttpMethod)
    (reqConfig : Config) :
    (Ev.sendLifecycle ∈ (networkPut env method reqConfig).1 ↔
      putReachesUpdate env reqConfig = true) ∧
    (putReachesUpdate env reqConfig = true →
      networkPut env method reqConfig =
        ((doNetworkUpdate env method reqConfig).1 ++ [Ev.sendLifecycle],
         (doNetworkUpdate env method reqConfig).2)) := by
  rcases hU : doNetworkUpdate env method reqConfig with ⟨updEvs, res⟩
  constructor
  · unfold networkPut putReachesUpdate
    rw [hU]
    split_ifs <;> simp
  · intro hreach
    unfold putReachesUpdate at hreach
    unfold networkPut
    rw [hU]
    split_ifs at hreach ⊢ <;> simp_all

/-- Witness for C3 amended: a concrete request that passes the pre-update
checks is answered by the doNetworkUpdate result with the event appended. -/
theorem networkPut_lifecycle_amended_witness :
    networkPut samplePutEnvFailedValidate HttpMethod.put [] =
      ((doNetworkUpdate samplePutEnvFailedValidate HttpMethod.put []).1 ++ [Ev.sendLifecycle],
       (doNetworkUpdate samplePutEnvFailedValidate HttpMethod.put []).2) :=
  (networkPut_lifecycle_amended samplePutEnvFailedValidate HttpMethod.put []).2 (by decide)

/-- C5: on a clustered server, with the earlier checks passing, a request
whose changed keys (request value differing from the current value, with
a missing current key reading as empty) include a node-specific key fails
with bad request when no target is given, and one whose changed keys
include a non-node-specific key fails with bad request when a target is
given; keys whose requested value equals the current value are exempt, so
when every changed key is in scope the request proceeds to the update. -/
theorem networkPut_clustered_key_scope (env : PutEnv) (method : HttpMethod)
    (reqConfig : Config)
    (hcl : env.clustered = true) (hload : env.loadOk = true) (hacc : env.accessOk = true)
    (hstate : ¬(env.target = "" ∧ env.status ≠ NetworkStatus.created))
    (hetag : env.etagOk = true) (hdec : env.decodeOk = true) :
    (∀ k, k ∈ changedConfigKeys env.curConfig reqConfig ↔
      ∃ v, (k, v) ∈ reqConfig ∧ cfgGet env.curConfig k ≠ v) ∧
    (env.target = "" →
      (∃ k ∈ changedConfigKeys env.curConfig reqConfig, env.nodeSpecific k = true) →
      networkPut env method reqConfig = ([], PutResult.badRequest)) ∧
    (env.target ≠ "" →
      (∃ k ∈ changedConfigKeys env.curConfig reqConfig, env.nodeSpecific k = false) →
      networkPut env method reqConfig = ([], PutResult.badRequest)) ∧
    ((env.target = "" → ∀ k ∈ changedConfigKeys env.curConfig reqConfig,
        env.nodeSpecific k = false) →
     (env.target ≠ "" → ∀ k ∈ changedConfigKeys env.curConfig reqConfig,
        env.nodeSpecific k = true) →
      networkPut env method reqConfig =
        ((doNetworkUpdate env method reqConfig).1 ++ [Ev.sendLifecycle],
         (doNetworkUpdate env method reqConfig).2)) := by
  refine ⟨?_, ?_, ?_, ?_⟩
  · intro k
    constructor
    · intro hk
      simp only [changedConfigKeys, List.mem_map, List.mem_filter] at hk
      rcases hk with ⟨⟨k0, v⟩, ⟨hmem, hne⟩, hfst⟩
      subst hfst
      exact ⟨v, hmem, by simpa using hne⟩
    · rintro ⟨v, hmem, hne⟩
      simp only [changedConfigKeys, List.mem_map, List.mem_filter]
      exact ⟨(k, v), ⟨hmem, by simpa using hne⟩, rfl⟩
  · rintro htgt ⟨k, hk, hns⟩
    have hviol : scopeViolation env reqConfig = true := by
      unfold scopeViolation
      rw [if_pos htgt]
      exact List.any_eq_true.2 ⟨k, hk, hns⟩
    unfold networkPut
    simp [hload, hacc, hstate, hetag, hdec, hcl, hviol]
  · rintro htgt ⟨k, hk, hns⟩
    have hviol : scopeViolation env reqConfig = true := by
      unfold scopeViolation
      rw [if_neg htgt]
      exact List.any_eq_true.2 ⟨k, hk, by simp [hns]⟩
    unfold networkPut
    simp [hload, hacc, hstate, hetag, hdec, hcl, hviol]
  · intro hno hyes
    have hviol : scopeViolation env reqConfig = false := by
      unfold scopeViolation
      by_cases htgt : env.target = ""
      · rw [if_pos htgt]
        refine List.any_eq_false.2 (fun k hk => ?_)
        simp [hno htgt k hk]
      · rw [if_neg htgt]
        refine List.any_eq_false.2 (fun k hk => ?_)
        simp [hyes htgt k hk]
    rcases hU : doNetworkUpdate env method reqConfig with ⟨updEvs, res⟩
    unfold networkPut
    rw [hU]
    simp [hload, hacc, hstate, hetag, hdec, hcl, hviol]

/-- Witness for C5: changing the node-specific parent key without a
target on a clustered server is refused with bad request. -/
theorem networkPut_clustered_key_scope_witness :
    networkPut sampleScopePutEnv HttpMethod.put [("parent", "eth1")]
      = ([], PutResult.badRequest) :=
  (networkPut_clustered_key_scope sampleScopePutEnv HttpMethod.put [("parent", "eth1")]
      rfl rfl rfl (by decide) rfl rfl).2.1 rfl ⟨"parent", by decide, by decide⟩

/-- C7: a rename request on a clustered server is refused with bad
request by the very first check, for every outcome of the later
validations, and driver Rename is never invoked. -/
theorem networkPost_rename_refused_when_clustered (env : RenameEnv)
    (hcl : env.clustered = true) :
    networkPost env = ([], RenameResult.badRequest) ∧
    Ev.driverRename ∉ (networkPost env).1 := by
  have h : networkPost env = ([], RenameResult.badRequest) := by
    unfold networkPost
    simp [hcl]
  exact ⟨h, by rw [h]; simp⟩

/-- Witness for C7 at a concrete clustered rename environment in which
every later check would pass. -/
theorem networkPost_rename_refused_when_clustered_witness :
    networkPost sampleRenameEnv = ([], RenameResult.badRequest) ∧
    Ev.driverRename ∉ (networkPost sampleRenameEnv).1 :=
  networkPost_rename_refused_when_clustered sampleRenameEnv rfl

/-- C10: a non-notification delete of a network that reports in use is
refused with bad request before driver Delete, before any peer
notification and before the catalog delete, leaving record and datapath
untouched. -/
theorem networkDelete_in_use_refused (env : DeleteEnv)
    (hload : env.loadOk = true) (hacc : env.accessOk = true)
    (hnotif : env.isClusterNotification = false)
    (hused : env.isUsed = some true) :
    networkDelete env = ([], DeleteResult.badRequest) ∧
    Ev.driverDelete ∉ (networkDelete env).1 ∧
    Ev.dbDeleteNetwork ∉ (networkDelete env).1 ∧
    ∀ m, Ev.peerDelete m ∉ (networkDelete env).1 := by
  have h : networkDelete env = ([], DeleteResult.badRequest) := by
    unfold networkDelete
    simp [hload, hacc, hnotif, hused]
  exact ⟨h, by rw [h]; simp, by rw [h]; simp, fun m => by rw [h]; simp⟩

/-- Witness for C10 at a concrete in-use delete request. -/
theorem networkDelete_in_use_refused_witness :
    networkDelete sampleDeleteEnv = ([], DeleteResult.badRequest) ∧
    Ev.driverDelete ∉ (networkDelete sampleDeleteEnv).1 ∧
    Ev.dbDeleteNetwork ∉ (networkDelete sampleDeleteEnv).1 := by
  have h := networkDelete_in_use_refused sampleDeleteEnv rfl rfl rfl rfl
  exact ⟨h.1, h.2.1, h.2.2.1⟩

/-- C8: listing in the default project yields exactly the union of the
managed names and the host interface names not beginning with veth, and
when the managed names are free of duplicates (as catalog names are) each
name appears at most once. -/
theorem networksGet_default_project_union (managed ifaces : List String)
    (hm : managed.Nodup) :
    (∀ x, x ∈ networksGetNames defaultProjectName managed ifaces ↔
      (x ∈ managed ∨ (x ∈ ifaces ∧ strStartsWith x "veth" = false))) ∧
    (networksGetNames defaultProjectName managed ifaces).Nodup := by
  constructor
  · intro x
    unfold networksGetNames
    rw [if_pos rfl]
    exact networksGetFold_mem ifaces managed x
  · unfold networksGetNames
    rw [if_pos rfl]
    exact networksGetFold_nodup ifaces managed hm

/-- Witness for C8 at concrete managed names and host interfaces with a
veth pair and an overlapping name. -/
theorem networksGet_default_project_union_witness :
    (("eth1" ∈ networksGetNames defaultProjectName ["br0", "eth0"]
        ["eth0", "veth123", "eth1"]) ↔
      ("eth1" ∈ ["br0", "eth0"] ∨
        ("eth1" ∈ ["eth0", "veth123", "eth1"] ∧ strStartsWith "eth1" "veth" = false))) ∧
    (networksGetNames defaultProjectName ["br0", "eth0"] ["eth0", "veth123", "eth1"]).Nodup :=
  ⟨(networksGet_default_project_union ["br0", "eth0"] ["eth0", "veth123", "eth1"]
      (by decide)).1 "eth1",
   (networksGet_default_project_union ["br0", "eth0"] ["eth0", "veth123", "eth1"]
      (by decide)).2⟩

/-- C9: in a startup pass, a loaded and validated network whose config
has a non-empty parent key and whose current bucket is not physical is
moved to the physical bucket without being started, regardless of its
network key, so the parent check takes precedence; and in general a start
is attempted only after both dependency classifications declined to move
the entry. -/
theorem loadAndInitNetwork_parent_classified_physical (env : StartupEnv)
    (buckets : InitNetworks) (pn : ProjectNetwork) (priority : Nat) (firstPass : Bool)
    (hload : (firstPass = true ∧ env.cached pn = true) ∨ env.load pn = LoadResult.ok)
    (hval : env.validateOk pn = true)
    (hpar : cfgGet (env.configOf pn) "parent" ≠ "")
    (hpri : priority ≠ networkPriorityPhysical) :
    loadAndInitNetwork env buckets pn priority firstPass
      = (bucketAdd (bucketDelete buckets priority pn) networkPriorityPhysical pn, [],
         StartupOutcome.moved) ∧
    pn ∈ bucketGet (loadAndInitNetwork env buckets pn priority firstPass).1
        networkPriorityPhysical ∧
    Ev.driverStart ∉ (loadAndInitNetwork env buckets pn priority firstPass).2.1 ∧
    (∀ env2 b2 pn2 pr2 fp2,
      Ev.driverStart ∈ (loadAndInitNetwork env2 b2 pn2 pr2 fp2).2.1 →
      ¬(cfgGet (env2.configOf pn2) "parent" ≠ "" ∧ pr2 ≠ networkPriorityPhysical) ∧
      ¬(cfgGet (env2.configOf pn2) "network" ≠ "" ∧ pr2 ≠ networkPriorityLogical)) := by
  have hc1 : ¬(¬(firstPass = true ∧ env.cached pn = true) ∧
      env.load pn = LoadResult.notFound) := by
    rcases hload with h | h
    · exact fun hc => hc.1 h
    · intro hc
      rw [h] at hc
      exact nomatch hc.2
  have hc2 : ¬(¬(firstPass = true ∧ env.cached pn = true) ∧
      env.load pn = LoadResult.err) := by
    rcases hload with h | h
    · exact fun hc => hc.1 h
    · intro hc
      rw [h] at hc
      exact nomatch hc.2
  have heq : loadAndInitNetwork env buckets pn priority firstPass
      = (bucketAdd (bucketDelete buckets priority pn) networkPriorityPhysical pn, [],
         StartupOutcome.moved) := by
    unfold loadAndInitNetwork
    rw [if_neg hc1, if_neg hc2, if_neg (by simp [hval]), if_pos ⟨hpar, hpri⟩]
  refine ⟨heq, by rw [heq]; exact bucketGet_bucketAdd_self _ _ _, by rw [heq]; simp, ?_⟩
  intro env2 b2 pn2 pr2 fp2 hmem
  unfold loadAndInitNetwork at hmem
  split_ifs at hmem with h1 h2 h3 h4 h5 h6 <;> simp at hmem <;> exact ⟨h4, h5⟩

/-- Witness for C9 at a concrete standalone entry whose config carries
both a parent and a network key: it is moved to the physical bucket and
not started. -/
theorem loadAndInitNetwork_parent_classified_physical_witness :
    loadAndInitNetwork sampleStartupEnv sampleBuckets samplePN networkPriorityStandalone true
      = (bucketAdd (bucketDelete sampleBuckets networkPriorityStandalone samplePN)
          networkPriorityPhysical samplePN, [], StartupOutcome.moved) ∧
    samplePN ∈ bucketGet (loadAndInitNetwork sampleStartupEnv sampleBuckets samplePN
        networkPriorityStandalone true).1 networkPriorityPhysical ∧
    Ev.driverStart ∉ (loadAndInitNetwork sampleStartupEnv sampleBuckets samplePN
        networkPriorityStandalone true).2.1 := by
  have h := loadAndInitNetwork_parent_classified_physical sampleStartupEnv sampleBuckets
    samplePN networkPriorityStandalone true (Or.inr rfl) rfl (by decide) (by decide)
  exact ⟨h.1, h.2.1, h.2.2.1⟩

end Incus
